import Mathlib

/-!
Shallow embedding of the analytics intent-routing core of the
06-smartway project (backend LangGraph pipeline from the implementation
plan document, plus the route-visualization frontend utilities), together
with theorems settling the specification claims about it.

Modelling conventions:
* Python `json.loads` is an external library call; a model reply is
  therefore embedded as `Option JValue`: `none` models a
  `json.JSONDecodeError`, `some v` the parsed JSON value.
* A call to the hosted completion model (`llm.invoke`) may raise; an
  oracle field of type `Except PyExc _` models the call outcome.
* Python exceptions are the `PyExc` type; an uncaught exception is an
  `Except.error` threaded to the FastAPI endpoint, which converts it to
  an HTTP 500 error.
-/

/-- JSON values as produced by Python `json.loads`.  Objects are the
entries of the resulting `dict` in order, with distinct keys. -/
inductive JValue where
  | jnull : JValue
  | jbool : Bool → JValue
  | jnum : Rat → JValue
  | jstr : String → JValue
  | jarr : List JValue → JValue
  | jobj : List (String × JValue) → JValue

/-- Whitespace stripping from both ends of a string (Python `str.strip()`
with no argument, JavaScript `String.prototype.trim()`), implemented
over the character list. -/
def stripStr (s : String) : String :=
  String.mk (((s.toList.dropWhile (fun c => c.isWhitespace)).reverse.dropWhile
    (fun c => c.isWhitespace)).reverse)

/-- Python `dict.get(k)` on a parsed JSON object: value of the first
entry with key `k`, if any. -/
def jlookup (fields : List (String × JValue)) (k : String) : Option JValue :=
  (fields.find? (fun p => p.1 == k)).map (fun p => p.2)

/-- Python exceptions that the embedded pipeline can raise. -/
inductive PyExc where
  | timeoutError
  | jsonDecodeError
  | attributeError
  | typeError
  | valueError
  | keyError : String → PyExc
  | validationError
deriving DecidableEq, Repr

/-- Counterpart of Python `str(e)` for the exceptions we model, used by
the endpoint's error detail and by `get_graph_data`'s error marker. -/
def pyExcStr : PyExc → String
  | .timeoutError => "Request timed out"
  | .jsonDecodeError => "Expecting value"
  | .attributeError => "object has no attribute get"
  | .typeError => "unsupported operand type"
  | .valueError => "Unknown format code f"
  | .keyError k => k
  | .validationError => "validation error for AnalyticsResponse"

/-- Node `intent_analyzer` (backend/analytics/nodes/router.py).

Input: the outcome of `llm.invoke` followed by `json.loads` on the
reply content (`.error e` = the model call raised `e`; `.ok none` =
`json.JSONDecodeError`; `.ok (some v)` = parsed value `v`).

The source wraps only `json.loads` and the field extraction in
`try/except json.JSONDecodeError`, so:
* a parse failure degrades to intent `"fallback"`;
* a parsed non-object raises `AttributeError` at `result.get` (uncaught);
* `result.get("intent", "fallback")` is returned unvalidated;
* the `print` f-string formats `confidence` with `:.2f`, which raises
  `ValueError` on a string and `TypeError` on null/array/object
  (uncaught); numbers and booleans format fine.

Returns the state update value for key `intent_type`. -/
def intent_analyzer (reply : Except PyExc (Option JValue)) : Except PyExc JValue :=
  match reply with
  | .error e => .error e
  | .ok none => .ok (.jstr "fallback")
  | .ok (some (.jobj fields)) =>
    let intent := (jlookup fields "intent").getD (.jstr "fallback")
    let confidence := (jlookup fields "confidence").getD (.jnum 0)
    match confidence with
    | .jnum _ => .ok intent
    | .jbool _ => .ok intent
    | .jstr _ => .error .valueError
    | _ => .error .typeError
  | .ok (some _) => .error .attributeError

/-- Whether a state value is hashable in Python (a `dict.get` with an
unhashable key — list or dict — raises `TypeError`). -/
def pyHashable : JValue → Bool
  | .jarr _ => false
  | .jobj _ => false
  | _ => true

/-- Python `v == s` for a state value `v` against a string key `s`. -/
def isJStr (v : JValue) (s : String) : Bool :=
  match v with
  | .jstr t => t == s
  | _ => false

/-- Function `conditional_router` (backend/analytics/nodes/router.py):
`state.get("intent_type", "fallback")` followed by
`route_map.get(intent, "fallback_response")` over the mapping
`find_highlight ↦ get_graph_data`, `analysis ↦ get_bus_data`,
`fallback ↦ fallback_response`.  `none` models the `intent_type` key
being absent from the state. -/
def conditional_router (intent_type : Option JValue) : Except PyExc String :=
  let intent := intent_type.getD (.jstr "fallback")
  if pyHashable intent then
    .ok (if isJStr intent "find_highlight" then "get_graph_data"
      else if isJStr intent "analysis" then "get_bus_data"
      else "fallback_response")
  else .error .typeError

/-- Raw node of the ReactFlow graph document, restricted to the fields
`get_graph_data` reads: `node["id"]`, `node["type"]`, and
`node.get("data", {}).get("label", "")` (`dataLabel = none` models a
missing label). -/
structure RawNode where
  id : String
  type : String
  dataLabel : Option String
deriving DecidableEq, Repr

/-- Raw edge of the ReactFlow graph document, restricted to the fields
`get_graph_data` reads: `edge["id"]`, `edge["source"]`,
`edge["target"]`, and `edge.get("label", "")`. -/
structure RawEdge where
  id : String
  source : String
  target : String
  label : Option String
deriving DecidableEq, Repr

/-- The decoded ReactFlow graph document. -/
structure RawGraph where
  nodes : List RawNode
  edges : List RawEdge
deriving DecidableEq, Repr

/-- Node entry of the transformed `graph_data` dict. -/
structure GNodeOut where
  id : String
  type : String
  label : String
deriving DecidableEq, Repr

/-- Edge entry of the transformed `graph_data` dict. -/
structure GEdgeOut where
  id : String
  source : String
  target : String
  label : String
deriving DecidableEq, Repr

/-- The `graph_data` value placed in the state by `get_graph_data`:
either the transformed dataset with its summary, or the
`{"error": str(e)}` marker dict produced by the `except` clause. -/
inductive GraphData where
  | loaded : List GNodeOut → List GEdgeOut → Nat → Nat → GraphData
  | loadError : String → GraphData
deriving DecidableEq, Repr

/-- Whether `get_graph_data` produced a transformed dataset (rather than
the error marker dict). -/
def GraphData.isLoaded : GraphData → Bool
  | .loaded _ _ _ _ => true
  | .loadError _ => false

/-- Node `get_graph_data` (backend/src/analytics/nodes/find_highlight.py).

Input: the outcome of opening and JSON-decoding
`data/reactflow_graph_route_stop.json` (`.error e` models any exception
while loading).  The node extracts `{id, type, label}` per node and
`{id, source, target, label}` per edge, plus a count summary.  The
whole body is wrapped in `try/except Exception`, so a failure returns
the `{"graph_data": {"error": str(e)}}` update instead of raising; no
referential-integrity validation is performed on the dataset. -/
def get_graph_data (file : Except PyExc RawGraph) : GraphData :=
  match file with
  | .error e => .loadError (pyExcStr e)
  | .ok raw =>
    let nodes := raw.nodes.map (fun n => GNodeOut.mk n.id n.type (n.dataLabel.getD ""))
    let edges := raw.edges.map (fun e => GEdgeOut.mk e.id e.source e.target (e.label.getD ""))
    .loaded nodes edges nodes.length edges.length

/-- Node `select_edge` (backend/src/analytics/nodes/find_highlight.py).

`graphData` is only serialized into the prompt (the node reads
`state.get("graph_data", {}).get("edges", [])` to build `edges_json`);
it is never consulted when handling the reply.  `reply` is the outcome
of `llm.invoke` followed by `json.loads(response.content)`; the
`json.loads` call is NOT inside a `try`, so a parse failure raises.
`result["highlight"]` and `result["reason"]` raise `KeyError` when
missing and `TypeError` when `result` is not a dict.  On success the
state update is `highlight_edge := result["highlight"]`,
`analysis_result := result["reason"]` — with no check that the returned
edge exists in the graph dataset. -/
def select_edge (_graphData : GraphData) (reply : Except PyExc (Option JValue)) :
    Except PyExc (JValue × JValue) :=
  match reply with
  | .error e => .error e
  | .ok none => .error .jsonDecodeError
  | .ok (some (.jobj fields)) =>
    match jlookup fields "highlight" with
    | none => .error (.keyError "highlight")
    | some h =>
      match jlookup fields "reason" with
      | none => .error (.keyError "reason")
      | some r => .ok (h, r)
  | .ok (some _) => .error .typeError

/-- Node `get_bus_data` (backend/src/analytics/nodes/analysis.py): loads
the two tabular JSON files and stores them as JSON strings; any load
exception is caught and both fields degrade to `"[]"`.  Never raises. -/
def get_bus_data (files : Except PyExc (String × String)) : String × String :=
  match files with
  | .ok p => p
  | .error _ => ("[]", "[]")

/-- Node `chart_type_selector` (backend/src/analytics/nodes/analysis.py):
returns `response.content.strip()` verbatim as the `chart_type` state
value — no validation against the permitted vocabulary and no degrade
path; only a raised model call propagates an error. -/
def chart_type_selector (reply : Except PyExc String) : Except PyExc String :=
  match reply with
  | .error e => .error e
  | .ok content => .ok (stripStr content)

/-- The keys of the `output_formats` dict in `generate_analytic`. -/
def output_format_keys : List String :=
  ["line_chart", "bar_chart", "table", "text_summary"]

/-- Node `generate_analytic` (backend/src/analytics/nodes/analysis.py).

`chart_type` is `state.get("chart_type", "text_summary")`.  The prompt
interpolates `output_formats[chart_type]`, which raises `KeyError` for
any chart type outside `output_format_keys` — before the model is even
called.  The reply is `json.loads`-parsed with no `try`, and
`result["chart_data"]` / `result["reason"]` are read as in
`select_edge`.  On success the state update is
`chart_data := result["chart_data"]`, `analysis_result := result["reason"]`. -/
def generate_analytic (chart_type : Option String)
    (reply : Except PyExc (Option JValue)) : Except PyExc (JValue × JValue) :=
  let ct := chart_type.getD "text_summary"
  if output_format_keys.contains ct then
    match reply with
    | .error e => .error e
    | .ok none => .error .jsonDecodeError
    | .ok (some (.jobj fields)) =>
      match jlookup fields "chart_data" with
      | none => .error (.keyError "chart_data")
      | some cd =>
        match jlookup fields "reason" with
        | none => .error (.keyError "reason")
        | some r => .ok (cd, r)
    | .ok (some _) => .error .typeError
  else .error (.keyError ct)

/-- The static message of `fallback_response`
(backend/analytics/nodes/fallback.py), before `.strip()`. -/
def fallback_message : String :=
  "\n죄송합니다. 질문을 이해하지 못했습니다.\n\n다음과 같은 질문을 시도해보세요:\n- \"가장 포화가 많은 노선은?\" (Find/Highlight)\n- \"월별 운행 단가 추이를 보여줘\" (Analysis)\n- \"노선별 수익률 비교해줘\" (Analysis)\n    "

/-- Node `fallback_response` (backend/analytics/nodes/fallback.py):
always succeeds, returning the stripped static message as the
`analysis_result` state value (the node sets no other response field —
in particular no chart type). -/
def fallback_response : String :=
  stripStr fallback_message

/-- Outcomes of the four hosted-completion calls the pipeline can make,
one field per calling node.  For the JSON-consuming nodes the field
combines `llm.invoke` and `json.loads` (see module conventions); for
`chart_type_selector` the raw reply text is used directly. -/
structure Oracle where
  classifierReply : Except PyExc (Option JValue)
  edgeReply : Except PyExc (Option JValue)
  chartTypeReply : Except PyExc String
  generateReply : Except PyExc (Option JValue)

/-- The final `AnalyticsState` fields the endpoint reads after
`analytics_graph.invoke` (a `none` field models the key being absent or
`None`). -/
structure FinalState where
  intent_type : Option JValue
  graph_data : Option GraphData
  highlight_edge : Option JValue
  transport_data : Option String
  commute_allowance_data : Option String
  chart_type : Option String
  chart_data : Option JValue
  analysis_result : Option JValue

/-- The empty initial state built by `analyze` (only `messages` is set,
which we do not track beyond the question text). -/
def initialState : FinalState :=
  ⟨none, none, none, none, none, none, none, none⟩

/-- Execution of the compiled LangGraph (`build_analytics_graph`):
`intent_analyzer`, then `conditional_router`, then one of the three
paths (`get_graph_data → select_edge`,
`get_bus_data → chart_type_selector → generate_analytic`, or
`fallback_response`).  `question` is the request text (it reaches the
model prompts only and thus never influences control flow).  Returns
the outcome (final state, or first uncaught exception) paired with the
list of nodes whose `llm.invoke` call was reached, in execution order
(the call in `generate_analytic` sits after the
`output_formats[chart_type]` lookup, so an unknown chart type raises
before that call). -/
def runGraph (_question : String) (o : Oracle) (graphFile : Except PyExc RawGraph)
    (busFiles : Except PyExc (String × String)) :
    Except PyExc FinalState × List String :=
  match intent_analyzer o.classifierReply with
  | .error e => (.error e, ["intent_analyzer"])
  | .ok intent =>
    match conditional_router (some intent) with
    | .error e => (.error e, ["intent_analyzer"])
    | .ok next =>
      if next = "get_graph_data" then
        match select_edge (get_graph_data graphFile) o.edgeReply with
        | .error e => (.error e, ["intent_analyzer", "select_edge"])
        | .ok (h, r) =>
          (.ok ⟨some intent, some (get_graph_data graphFile), some h,
            none, none, none, none, some r⟩, ["intent_analyzer", "select_edge"])
      else if next = "get_bus_data" then
        match chart_type_selector o.chartTypeReply with
        | .error e => (.error e, ["intent_analyzer", "chart_type_selector"])
        | .ok ct =>
          match generate_analytic (some ct) o.generateReply with
          | .error e =>
            (.error e, "intent_analyzer" :: "chart_type_selector" ::
              (if output_format_keys.contains ct then ["generate_analytic"] else []))
          | .ok (cd, r) =>
            (.ok ⟨some intent, none, none, some (get_bus_data busFiles).1,
              some (get_bus_data busFiles).2, some ct, some cd, some r⟩,
              "intent_analyzer" :: "chart_type_selector" ::
                (if output_format_keys.contains ct then ["generate_analytic"] else []))
      else
        (.ok ⟨some intent, none, none, none, none, none, none,
          some (.jstr fallback_response)⟩, ["intent_analyzer"])

/-- The `AnalyticsResponse` pydantic model
(backend/api/routes/analytics.py): `intent_type: str`,
`highlight_edge: Optional[Dict[str, Any]]`,
`chart_data: Optional[Dict[str, Any]]`, `analysis_result: Optional[str]`,
`chart_type: Optional[str]`. -/
structure AnalyticsResponse where
  intent_type : String
  highlight_edge : Option (List (String × JValue))
  chart_data : Option (List (String × JValue))
  analysis_result : Option String
  chart_type : Option String

/-- Pydantic validation of an `Optional[Dict[str, Any]]` field: absent
or JSON `null` become `None`, an object becomes the dict, anything else
is a `ValidationError`. -/
def pyOptionalDict : Option JValue → Except PyExc (Option (List (String × JValue)))
  | none => .ok none
  | some .jnull => .ok none
  | some (.jobj fields) => .ok (some fields)
  | some _ => .error .validationError

/-- Pydantic validation of an `Optional[str]` field: absent or JSON
`null` become `None`, a string stays, anything else is a
`ValidationError` (pydantic v2 does not coerce numbers or booleans to
`str`). -/
def pyOptionalStr : Option JValue → Except PyExc (Option String)
  | none => .ok none
  | some .jnull => .ok none
  | some (.jstr s) => .ok (some s)
  | some _ => .error .validationError

/-- Construction of the `AnalyticsResponse` from the final state inside
`analyze`: `result.get("intent_type", "fallback")` etc., then pydantic
field validation (a non-string `intent_type` is a `ValidationError`,
raised inside the endpoint's `try`). -/
def mkAnalyticsResponse (st : FinalState) : Except PyExc AnalyticsResponse := do
  let intentVal := st.intent_type.getD (.jstr "fallback")
  let intent ← match intentVal with
    | .jstr s => Except.ok s
    | _ => Except.error .validationError
  let he ← pyOptionalDict st.highlight_edge
  let cd ← pyOptionalDict st.chart_data
  let ar ← pyOptionalStr st.analysis_result
  .ok ⟨intent, he, cd, ar, st.chart_type⟩

/-- Endpoint `POST /api/analytics` (`analyze` in
backend/api/routes/analytics.py): runs the graph and builds the
response model, all inside one `try`; ANY exception is converted to
`HTTPException(status_code=500, detail=str(e))`, modelled as
`.error (500, detail)`. -/
def analyze (question : String) (o : Oracle) (graphFile : Except PyExc RawGraph)
    (busFiles : Except PyExc (String × String)) :
    Except (Nat × String) AnalyticsResponse :=
  match (runGraph question o graphFile busFiles).1 >>= mkAnalyticsResponse with
  | .ok r => .ok r
  | .error e => .error (500, pyExcStr e)

/-- Nodes whose `llm.invoke` was reached during `analyze` (projection of
`runGraph`'s call trace; the endpoint adds no further model calls). -/
def analyzeLLMCalls (question : String) (o : Oracle) (graphFile : Except PyExc RawGraph)
    (busFiles : Except PyExc (String × String)) : List String :=
  (runGraph question o graphFile busFiles).2

/-- Guard at the top of `handleSend`
(frontend/app/route-visualization/components/RightPanel.tsx):
`if (!input.trim() || loading) return;` — `true` iff a request is sent
to the backend (and hence the classifier can run at all) for this
input. -/
def handleSendSends (input : String) (loading : Bool) : Bool :=
  !(stripStr input == "") && !loading

/-- Stop node data as read by `calculateCurrentPassengers`
(`node.data as StopNodeData`): the boarding/alighting action and the
head count. -/
structure StopNodeData where
  action : String
  count : Int
deriving DecidableEq, Repr

/-- Node of the frontend route graph
(route-visualization/utils/dataTransform.ts usage of `RouteNode`):
`parentNode` is the route-group id, absent for non-stop nodes. -/
structure RouteNode where
  id : String
  parentNode : Option String
  data : StopNodeData
deriving DecidableEq, Repr

/-- Edge of the frontend route graph (`RouteEdge`). -/
structure RouteEdge where
  id : String
  source : String
  target : String
  label : Option String
deriving DecidableEq, Repr

/-- The frontend route graph document (`RouteGraphData`). -/
structure RouteGraphData where
  nodes : List RouteNode
  edges : List RouteEdge
deriving DecidableEq, Repr

/-- Output element of `calculateCurrentPassengers` (`EnrichedEdge`):
the spread `{...edge, currentPassengers, label}` keeps the edge's
`id`/`source`/`target` and overwrites `label`. -/
structure EnrichedEdge where
  id : String
  source : String
  target : String
  currentPassengers : Int
  label : String
deriving DecidableEq, Repr

/-- Function `validateNodeEdges`
(route-visualization/utils/dataTransform.ts): scans the edges and
returns `false` at the first edge whose `source` or `target` is not an
existing node id, else `true`.  It only reports; it neither throws nor
filters. -/
def validateNodeEdges (data : RouteGraphData) : Bool :=
  let nodeIds := data.nodes.map (fun n => n.id)
  data.edges.all (fun e => nodeIds.contains e.source && nodeIds.contains e.target)

/-- JavaScript `parseInt(s)` restricted to radix-10 inputs, over the
character list: skip leading whitespace, read an optional sign and then
the longest digit prefix; `none` models `NaN` (no digits found). -/
def parseIntChars (cs : List Char) : Option Int :=
  let cs := cs.dropWhile (fun c => c.isWhitespace)
  let signAndRest : Int × List Char :=
    match cs with
    | '-' :: rest => (-1, rest)
    | '+' :: rest => (1, rest)
    | _ => (1, cs)
  let ds := signAndRest.2.takeWhile (fun c => c.isDigit)
  if ds.isEmpty then none
  else some (signAndRest.1 * (ds.foldl (fun a c => a * 10 + (c.toNat - '0'.toNat)) 0 : Nat))

/-- JavaScript `id.split('::')` over the character list: split at each
non-overlapping leftmost occurrence of the two-character separator. -/
def splitOnColons : List Char → List (List Char)
  | [] => [[]]
  | ':' :: ':' :: rest => [] :: splitOnColons rest
  | c :: rest =>
    match splitOnColons rest with
    | [] => [[c]]
    | h :: t => (c :: h) :: t

/-- Sort key of `calculateCurrentPassengers`:
`parseInt(node.id.split('::')[1] || '0')`.  The `|| '0'` replaces both a
missing and an empty second segment (both are falsy). -/
def nodeSortKey (n : RouteNode) : Option Int :=
  let seg := (splitOnColons n.id.toList).getD 1 []
  parseIntChars (if seg.isEmpty then ['0'] else seg)

/-- Comparator order derived from `(a, b) => aNum - bNum` under the
ECMAScript rule that a `NaN` comparator result counts as `0` (elements
compare as equal): `true` when `a` need not be placed after `b`. -/
def nodeLE (a b : RouteNode) : Bool :=
  match nodeSortKey a, nodeSortKey b with
  | some x, some y => x ≤ y
  | _, _ => true

/-- Stable insertion of `x` into `l` (which is already sorted): `x` goes
in front of the first element it need not follow. -/
def orderedInsert (x : RouteNode) : List RouteNode → List RouteNode
  | [] => [x]
  | y :: ys => if nodeLE x y then x :: y :: ys else y :: orderedInsert x ys

/-- The `routeNodes.sort((a, b) => aNum - bNum)` step: a stable
comparison sort by `nodeSortKey`. -/
def sortRouteNodes (l : List RouteNode) : List RouteNode :=
  l.foldr orderedInsert []

/-- Append `n` to the group keyed `k`, creating the group at the end on
first sight of `k` (JavaScript `Map` preserves insertion order). -/
def insertGroup (k : String) (n : RouteNode) :
    List (String × List RouteNode) → List (String × List RouteNode)
  | [] => [(k, [n])]
  | (k', l) :: rest =>
    if k' == k then (k', l ++ [n]) :: rest else (k', l) :: insertGroup k n rest

/-- The `routeGroups` map of `calculateCurrentPassengers`: nodes with a
`parentNode` grouped by it, groups in first-appearance order, members
in input order. -/
def routeGroups (nodes : List RouteNode) : List (String × List RouteNode) :=
  nodes.foldl (fun gs n =>
    match n.parentNode with
    | some route => insertGroup route n gs
    | none => gs) []

/-- Contribution of one stop to the running passenger count:
`'승차'` boards `count` passengers, `'하차'` alights `count`, any other
action leaves the count unchanged. -/
def passengerDelta (n : RouteNode) : Int :=
  if n.data.action == "승차" then n.data.count
  else if n.data.action == "하차" then -n.data.count
  else 0

/-- Inner `sortedNodes.forEach` loop of `calculateCurrentPassengers` on
the remainder of the sorted group, carrying the running passenger
count: each stop first updates the count, then (when a next stop
exists) the first input edge from this stop to the next is enriched
with the updated count and a `"<count>명"` label. -/
def enrichGroup (edges : List RouteEdge) : List RouteNode → Int → List EnrichedEdge
  | [], _ => []
  | [n], current =>
    let _ := current + passengerDelta n
    []
  | n :: next :: rest, current =>
    let current := current + passengerDelta n
    let found := edges.find? (fun e => e.source == n.id && e.target == next.id)
    match found with
    | some e =>
      ⟨e.id, e.source, e.target, current, toString current ++ "명"⟩ ::
        enrichGroup edges (next :: rest) current
    | none => enrichGroup edges (next :: rest) current

/-- Function `calculateCurrentPassengers`
(route-visualization/utils/dataTransform.ts): group the stops by route,
sort each group by the numeric id segment, walk each sorted group
accumulating boardings and alightings, and emit the enriched
consecutive-stop edges of all groups in order. -/
def calculateCurrentPassengers (nodes : List RouteNode) (edges : List RouteEdge) :
    List EnrichedEdge :=
  (routeGroups nodes).foldl (fun acc g => acc ++ enrichGroup edges (sortRouteNodes g.2) 0) []

/-- Specification-side reading of the running count: total boarded
(`'승차'`) head count over a list of stops. -/
def boardedSum : List RouteNode → Int
  | [] => 0
  | n :: t => (if n.data.action == "승차" then n.data.count else 0) + boardedSum t

/-- Total alighted (`'하차'`) head count over a list of stops. -/
def alightedSum : List RouteNode → Int
  | [] => 0
  | n :: t => (if n.data.action == "하차" then n.data.count else 0) + alightedSum t

/-! Theorems settling the claims. -/

/-- Helper: a true `isJStr` test identifies the value. -/
theorem isJStr_eq_true {v : JValue} {s : String} (h : isJStr v s = true) :
    v = .jstr s := by
  cases v <;> simp [isJStr] at h ⊢
  exact h

/-- C1: for every intent label value read from state — any string,
recognized or not, as well as a missing label — `conditional_router`
returns, without raising, one of the three known processor node
identifiers; the two non-fallback identifiers are produced exactly for
their mapped labels and every other label (including a degraded
`fallback` decision) maps to the fallback node. -/
theorem conditional_router_totality (v : Option String) :
    ∃ node, conditional_router (v.map JValue.jstr) = .ok node ∧
      (node = "get_graph_data" ∨ node = "get_bus_data" ∨ node = "fallback_response") ∧
      (v = some "find_highlight" → node = "get_graph_data") ∧
      (v = some "analysis" → node = "get_bus_data") ∧
      (v ≠ some "find_highlight" → v ≠ some "analysis" → node = "fallback_response") := by
  cases v with
  | none =>
    exact ⟨"fallback_response", rfl, Or.inr (Or.inr rfl), by simp, by simp, fun _ _ => rfl⟩
  | some s =>
    by_cases h1 : s = "find_highlight"
    · subst h1
      exact ⟨"get_graph_data", rfl, Or.inl rfl, fun _ => rfl, by simp, by simp⟩
    · by_cases h2 : s = "analysis"
      · subst h2
        exact ⟨"get_bus_data", rfl, Or.inr (Or.inl rfl), by simp, fun _ => rfl, by simp⟩
      · refine ⟨"fallback_response", ?_, Or.inr (Or.inr rfl), by simp [h1], by simp [h2],
          fun _ _ => rfl⟩
        simp [conditional_router, isJStr, pyHashable, h1, h2]

/-- C1 witness: the totality theorem evaluated at the unknown label
`"weird_label"`, which routes to the fallback node. -/
theorem conditional_router_totality_witness :
    ∃ node, conditional_router ((some "weird_label").map JValue.jstr) = .ok node ∧
      (node = "get_graph_data" ∨ node = "get_bus_data" ∨ node = "fallback_response") ∧
      (some "weird_label" = some "find_highlight" → node = "get_graph_data") ∧
      (some "weird_label" = some "analysis" → node = "get_bus_data") ∧
      (some "weird_label" ≠ some "find_highlight" → some "weird_label" ≠ some "analysis" →
        node = "fallback_response") :=
  conditional_router_totality (some "weird_label")

/-- C3 counterexample: a reply that parses to valid JSON whose `intent`
field is the unrecognized label `"weather_report"` is passed through
verbatim by `intent_analyzer` — it is not degraded to the fallback
decision the claim demands. -/
theorem intent_passthrough_unrecognized :
    intent_analyzer (.ok (some (.jobj [("intent", .jstr "weather_report"),
        ("confidence", .jnum (9/10)), ("reason", .jstr "새로운 분류")]))) =
      .ok (.jstr "weather_report") ∧ "weather_report" ≠ "fallback" :=
  ⟨rfl, by decide⟩

/-- C3 amended: on a JSON parse failure `intent_analyzer` returns just
the label `"fallback"` (no confidence or rationale is produced); an
exception from the model call propagates unchanged; and a reply parsing
to an object has its `intent` value returned without any validation
(provided the `confidence` value formats, i.e. is a number). -/
theorem intent_analyzer_degrade_rules :
    (intent_analyzer (.ok none) = .ok (.jstr "fallback")) ∧
    (∀ e, intent_analyzer (.error e) = .error e) ∧
    (∀ fields v q, jlookup fields "intent" = some v →
      (jlookup fields "confidence").getD (.jnum 0) = .jnum q →
      intent_analyzer (.ok (some (.jobj fields))) = .ok v) := by
  refine ⟨rfl, fun e => rfl, fun fields v q h1 h2 => ?_⟩
  simp [intent_analyzer, h1, h2]

/-- C3 witness: the degrade/pass-through rules evaluated on a concrete
object reply carrying the label `"analysis"`. -/
theorem intent_analyzer_degrade_rules_witness :
    jlookup [("intent", JValue.jstr "analysis"), ("confidence", JValue.jnum 1)] "intent" =
      some (JValue.jstr "analysis") ∧
    (jlookup [("intent", JValue.jstr "analysis"), ("confidence", JValue.jnum 1)]
        "confidence").getD (JValue.jnum 0) = JValue.jnum 1 ∧
    intent_analyzer (.ok (some (.jobj [("intent", JValue.jstr "analysis"),
      ("confidence", JValue.jnum 1)]))) = .ok (JValue.jstr "analysis") :=
  ⟨rfl, rfl, intent_analyzer_degrade_rules.2.2 _ _ 1 rfl rfl⟩

/-- C4 counterexample: `select_edge` returns a highlight whose edge id
`"ghost-edge"` does not occur among the dataset's edges (here the only
edge id is `"edge-1"`); no `NotFoundError` is raised and no existence
check happens. -/
theorem select_edge_fabricated_highlight :
    select_edge (get_graph_data (.ok ⟨[⟨"n1", "stop", some "BYC 사거리"⟩],
        [⟨"edge-1", "n1", "n1", some "7명"⟩]⟩))
      (.ok (some (.jobj [("highlight", .jobj [("id", .jstr "ghost-edge"),
        ("source", .jstr "nx"), ("target", .jstr "ny"), ("label", .jstr "유령 노선")]),
        ("reason", .jstr "가장 포화가 많은 노선")]))) =
      .ok (.jobj [("id", .jstr "ghost-edge"), ("source", .jstr "nx"),
        ("target", .jstr "ny"), ("label", .jstr "유령 노선")], .jstr "가장 포화가 많은 노선") ∧
    ([⟨"edge-1", "n1", "n1", some "7명"⟩] : List RawEdge).all
      (fun e => e.id != "ghost-edge") = true :=
  ⟨rfl, rfl⟩

/-- C4 amended: `select_edge` returns whatever highlight/reason pair the
model supplies, for any graph dataset and identically across datasets
(the dataset only feeds the prompt); a non-JSON reply raises a
`JSONDecodeError` instead of degrading. -/
theorem select_edge_ignores_dataset (gd gd' : GraphData)
    (fields : List (String × JValue)) (h r : JValue)
    (hh : jlookup fields "highlight" = some h)
    (hr : jlookup fields "reason" = some r) :
    select_edge gd (.ok (some (.jobj fields))) = .ok (h, r) ∧
    select_edge gd (.ok (some (.jobj fields))) = select_edge gd' (.ok (some (.jobj fields))) ∧
    select_edge gd (.ok none) = .error .jsonDecodeError := by
  refine ⟨?_, ?_, rfl⟩ <;> simp [select_edge, hh, hr]

/-- C4 witness: `select_edge` evaluated on two different datasets and a
concrete model reply. -/
theorem select_edge_ignores_dataset_witness :
    jlookup [("highlight", JValue.jstr "h"), ("reason", JValue.jstr "r")] "highlight" =
      some (JValue.jstr "h") ∧
    jlookup [("highlight", JValue.jstr "h"), ("reason", JValue.jstr "r")] "reason" =
      some (JValue.jstr "r") ∧
    select_edge (.loaded [] [] 0 0)
      (.ok (some (.jobj [("highlight", JValue.jstr "h"), ("reason", JValue.jstr "r")]))) =
      .ok (JValue.jstr "h", JValue.jstr "r") :=
  ⟨rfl, rfl, (select_edge_ignores_dataset (.loaded [] [] 0 0) (.loadError "x")
    [("highlight", JValue.jstr "h"), ("reason", JValue.jstr "r")]
    (JValue.jstr "h") (JValue.jstr "r") rfl rfl).1⟩


/-- C5 counterexample: a dataset whose single edge targets the
nonexistent node `"n2-missing"` is accepted by `get_graph_data` (the
fetch succeeds); no `DataIntegrityError` exists in the code. -/
theorem get_graph_data_accepts_dangling_edge :
    (get_graph_data (.ok ⟨[⟨"n1", "stop", some "Stop 1"⟩],
        [⟨"e1", "n1", "n2-missing", some "5명"⟩]⟩)).isLoaded = true ∧
    (([⟨"n1", "stop", some "Stop 1"⟩] : List RawNode).map RawNode.id).contains
      "n2-missing" = false :=
  ⟨rfl, rfl⟩

/-- C5 amended: `get_graph_data` succeeds on every decoded dataset — it
performs no referential-integrity check at all; the only integrity
check in the repository is the frontend's `validateNodeEdges`, which
merely returns `false` (it neither throws nor filters) exactly when
some edge references a missing node id. -/
theorem graph_fetch_never_integrity_fails :
    (∀ raw : RawGraph, (get_graph_data (.ok raw)).isLoaded = true) ∧
    (∀ d : RouteGraphData, validateNodeEdges d = false ↔
      ∃ e ∈ d.edges, (d.nodes.map (fun n => n.id)).contains e.source = false ∨
        (d.nodes.map (fun n => n.id)).contains e.target = false) := by
  constructor
  · intro raw; rfl
  · intro d
    simp [validateNodeEdges, List.all_eq_false]
    refine exists_congr fun e => and_congr_right fun _ => ?_
    constructor
    · intro h
      by_cases hs : ∃ n ∈ d.nodes, n.id = e.source
      · obtain ⟨n, hn, hid⟩ := hs
        exact Or.inr (h n hn hid)
      · push_neg at hs
        exact Or.inl hs
    · rintro (h | h) n hn hid
      · exact absurd hid (h n hn)
      · exact h

/-- C5 witness: the amended theorem evaluated at a concrete intact
dataset and at a concrete dangling-edge dataset. -/
theorem graph_fetch_never_integrity_fails_witness :
    (get_graph_data (.ok ⟨[⟨"a", "stop", none⟩], []⟩)).isLoaded = true ∧
    validateNodeEdges ⟨[⟨"a", none, ⟨"승차", 1⟩⟩], [⟨"e", "a", "zzz", none⟩]⟩ = false :=
  ⟨graph_fetch_never_integrity_fails.1 ⟨[⟨"a", "stop", none⟩], []⟩,
    (graph_fetch_never_integrity_fails.2 ⟨[⟨"a", none, ⟨"승차", 1⟩⟩],
      [⟨"e", "a", "zzz", none⟩]⟩).mpr ⟨⟨"e", "a", "zzz", none⟩, by simp, Or.inr rfl⟩⟩

/-- C8 counterexample: the model reply `" pie_chart "` is stripped and
passed through by `chart_type_selector` even though it is outside the
permitted vocabulary, and `generate_analytic` then raises `KeyError`
at the `output_formats` lookup instead of degrading to the text chart
type. -/
theorem chart_type_unvalidated_passthrough :
    chart_type_selector (.ok " pie_chart ") = .ok "pie_chart" ∧
    output_format_keys.contains "pie_chart" = false ∧
    generate_analytic (some "pie_chart")
        (.ok (some (.jobj [("chart_data", .jnull), ("reason", .jstr "요약")]))) =
      .error (.keyError "pie_chart") :=
  ⟨rfl, rfl, rfl⟩

/-- C8 amended: `chart_type_selector` returns the stripped model reply
verbatim (no vocabulary check, no degrade-to-text) and propagates model
call errors; any chart type outside the `output_formats` vocabulary
makes `generate_analytic` raise `KeyError` before calling the model. -/
theorem chart_type_selector_no_degrade :
    (∀ s, chart_type_selector (.ok s) = .ok (stripStr s)) ∧
    (∀ e, chart_type_selector (.error e) = .error e) ∧
    (∀ ct reply, output_format_keys.contains ct = false →
      generate_analytic (some ct) reply = .error (.keyError ct)) := by
  refine ⟨fun s => rfl, fun e => rfl, fun ct reply h => ?_⟩
  have hc : ¬ (output_format_keys.contains ct = true) := fun hm => by
    rw [hm] at h; exact Bool.noConfusion h
  simp only [generate_analytic, Option.getD_some, if_neg hc]

/-- C8 witness: the no-degrade rules evaluated at the out-of-vocabulary
chart type `"donut"`. -/
theorem chart_type_selector_no_degrade_witness :
    chart_type_selector (.ok "donut") = .ok (stripStr "donut") ∧
    output_format_keys.contains "donut" = false ∧
    generate_analytic (some "donut") (.ok none) = .error (.keyError "donut") :=
  ⟨chart_type_selector_no_degrade.1 "donut", rfl,
    chart_type_selector_no_degrade.2.2 "donut" (.ok none) rfl⟩

/-- C9 counterexample: a request routed to the fallback processor yields
an envelope whose `chart_type` field is `none` — no text chart type is
ever attached to the fallback result. -/
theorem fallback_envelope_no_chart_type :
    analyze "안녕하세요" ⟨.ok (some (.jobj [("intent", .jstr "fallback"),
        ("confidence", .jnum 1), ("reason", .jstr "인사")])), .ok none, .ok "", .ok none⟩
      (.ok ⟨[], []⟩) (.ok ("[]", "[]")) =
      .ok ⟨"fallback", none, none, some fallback_response, none⟩ ∧
    AnalyticsResponse.chart_type ⟨"fallback", none, none, some fallback_response, none⟩ =
      none :=
  ⟨rfl, rfl⟩

/-- C9 amended: whenever the router selects the fallback node, the graph
run always succeeds, placing the non-empty static apology narrative in
`analysis_result` and leaving the chart type unset. -/
theorem fallback_response_total_backstop (q : String) (o : Oracle)
    (gf : Except PyExc RawGraph) (bf : Except PyExc (String × String)) (intent : JValue)
    (h1 : intent_analyzer o.classifierReply = .ok intent)
    (h2 : conditional_router (some intent) = .ok "fallback_response") :
    (runGraph q o gf bf).1 =
      .ok ⟨some intent, none, none, none, none, none, none,
        some (.jstr fallback_response)⟩ ∧
    fallback_response ≠ "" := by
  refine ⟨?_, by decide⟩
  simp [runGraph, h1, h2, initialState]

/-- C9 witness: the backstop theorem evaluated on a run whose classifier
reply fails to parse (hence degrades to the fallback label). -/
theorem fallback_response_total_backstop_witness :
    intent_analyzer (Oracle.classifierReply ⟨.ok none, .ok none, .ok "", .ok none⟩) =
      .ok (.jstr "fallback") ∧
    conditional_router (some (.jstr "fallback")) = .ok "fallback_response" ∧
    (runGraph "도움말" ⟨.ok none, .ok none, .ok "", .ok none⟩ (.ok ⟨[], []⟩)
        (.ok ("[]", "[]"))).1 =
      .ok ⟨some (.jstr "fallback"), none, none, none, none, none, none,
        some (.jstr fallback_response)⟩ :=
  ⟨rfl, rfl, (fallback_response_total_backstop "도움말" ⟨.ok none, .ok none, .ok "", .ok none⟩
    (.ok ⟨[], []⟩) (.ok ("[]", "[]")) (.jstr "fallback") rfl rfl).1⟩

/-- C2 counterexample: when the classifier model call raises a timeout,
`analyze` does not return a fallback envelope — the exception reaches
the endpoint's catch-all and surfaces as an HTTP 500 error. -/
theorem analyze_timeout_http500 :
    analyze "가장 포화가 많은 노선은?" ⟨.error .timeoutError, .ok none, .ok "", .ok none⟩
      (.ok ⟨[], []⟩) (.ok ("[]", "[]")) = .error (500, pyExcStr .timeoutError) :=
  rfl

/-- C2 amended: only a classifier JSON-parse failure degrades into a
fallback envelope (with the non-empty static narrative); an exception
raised by the classifier call itself — timeout included — propagates out
of the graph and is surfaced by the endpoint as an HTTP 500 error
rather than an envelope. -/
theorem analyze_error_surface (q : String) (o : Oracle) (gf : Except PyExc RawGraph)
    (bf : Except PyExc (String × String)) :
    (o.classifierReply = .ok none →
      analyze q o gf bf = .ok ⟨"fallback", none, none, some fallback_response, none⟩) ∧
    (∀ e, o.classifierReply = .error e → analyze q o gf bf = .error (500, pyExcStr e)) ∧
    fallback_response ≠ "" := by
  obtain ⟨cr, er, ctr, gr⟩ := o
  refine ⟨fun h => ?_, fun e h => ?_, by decide⟩
  · simp only at h
    subst h
    rfl
  · simp only at h
    subst h
    rfl

/-- C2 witness: the error-surface theorem evaluated on a parse-failing
classifier and on a timeout-raising classifier. -/
theorem analyze_error_surface_witness :
    (Oracle.classifierReply ⟨.ok none, .ok none, .ok "", .ok none⟩ = .ok none) ∧
    analyze "질문" ⟨.ok none, .ok none, .ok "", .ok none⟩ (.ok ⟨[], []⟩) (.ok ("[]", "[]")) =
      .ok ⟨"fallback", none, none, some fallback_response, none⟩ ∧
    analyze "질문" ⟨.error .timeoutError, .ok none, .ok "", .ok none⟩ (.ok ⟨[], []⟩)
      (.ok ("[]", "[]")) = .error (500, pyExcStr .timeoutError) :=
  ⟨rfl,
    (analyze_error_surface "질문" ⟨.ok none, .ok none, .ok "", .ok none⟩ (.ok ⟨[], []⟩)
      (.ok ("[]", "[]"))).1 rfl,
    (analyze_error_surface "질문" ⟨.error .timeoutError, .ok none, .ok "", .ok none⟩
      (.ok ⟨[], []⟩) (.ok ("[]", "[]"))).2.1 .timeoutError rfl⟩

/-- C6 counterexample: on the empty utterance the backend raises no
`ValidationError`; the classifier model call is performed (the call
trace is nonempty, starting with `intent_analyzer`) and a normal
fallback envelope is returned. -/
theorem empty_question_reaches_classifier :
    analyzeLLMCalls "" ⟨.ok (some (.jobj [("intent", .jstr "fallback"),
        ("confidence", .jnum 1), ("reason", .jstr "빈 입력")])), .ok none, .ok "", .ok none⟩
      (.ok ⟨[], []⟩) (.ok ("[]", "[]")) = ["intent_analyzer"] ∧
    analyze "" ⟨.ok (some (.jobj [("intent", .jstr "fallback"),
        ("confidence", .jnum 1), ("reason", .jstr "빈 입력")])), .ok none, .ok "", .ok none⟩
      (.ok ⟨[], []⟩) (.ok ("[]", "[]")) =
      .ok ⟨"fallback", none, none, some fallback_response, none⟩ :=
  ⟨rfl, rfl⟩

/-- C6 amended: the backend applies no emptiness validation — the empty
utterance is processed exactly like any other question (same result,
same model calls, the classifier call always first); the only
empty-input guard is the frontend's `handleSend`, which silently sends
no request when the trimmed input is empty. -/
theorem empty_input_no_backend_validation :
    (∀ (q : String) (o : Oracle) (gf : Except PyExc RawGraph)
        (bf : Except PyExc (String × String)),
      analyze "" o gf bf = analyze q o gf bf ∧
      analyzeLLMCalls "" o gf bf = analyzeLLMCalls q o gf bf) ∧
    (∀ (o : Oracle) (gf : Except PyExc RawGraph) (bf : Except PyExc (String × String)),
      (analyzeLLMCalls "" o gf bf).head? = some "intent_analyzer") ∧
    (∀ input, stripStr input = "" → ∀ loading, handleSendSends input loading = false) := by
  refine ⟨fun q o gf bf => ⟨rfl, rfl⟩, fun o gf bf => ?_, fun input h loading => ?_⟩
  · simp only [analyzeLLMCalls, runGraph]
    split
    · rfl
    · split
      · rfl
      · split
        · split <;> rfl
        · split
          · split
            · rfl
            · split <;> rfl
          · rfl
  · simp [handleSendSends, h]

/-- C6 witness: the no-validation theorem evaluated on a concrete run
and on the whitespace-only frontend input `"   "`. -/
theorem empty_input_no_backend_validation_witness :
    analyzeLLMCalls "" ⟨.ok none, .ok none, .ok "", .ok none⟩ (.ok ⟨[], []⟩)
        (.ok ("[]", "[]")) =
      analyzeLLMCalls "도움말" ⟨.ok none, .ok none, .ok "", .ok none⟩ (.ok ⟨[], []⟩)
        (.ok ("[]", "[]")) ∧
    stripStr "   " = "" ∧
    handleSendSends "   " false = false :=
  ⟨(empty_input_no_backend_validation.1 "도움말" ⟨.ok none, .ok none, .ok "", .ok none⟩
      (.ok ⟨[], []⟩) (.ok ("[]", "[]"))).2, rfl,
    empty_input_no_backend_validation.2.2 "   " rfl false⟩

/-- Helper: the three possible routing outcomes of a successful
`conditional_router` call, tied to the label tests. -/
theorem conditional_router_ok_cases (intent : JValue) (next : String)
    (h : conditional_router (some intent) = .ok next) :
    (isJStr intent "find_highlight" = true ∧ next = "get_graph_data") ∨
    (isJStr intent "find_highlight" = false ∧ isJStr intent "analysis" = true ∧
      next = "get_bus_data") ∨
    (isJStr intent "find_highlight" = false ∧ isJStr intent "analysis" = false ∧
      next = "fallback_response") := by
  unfold conditional_router at h
  simp only [Option.getD_some] at h
  split at h
  · simp only [Except.ok.injEq] at h
    cases h1 : isJStr intent "find_highlight" with
    | true =>
      left
      exact ⟨rfl, by rw [← h, if_pos h1]⟩
    | false =>
      rw [if_neg (by rw [h1]; exact Bool.noConfusion)] at h
      cases h2 : isJStr intent "analysis" with
      | true =>
        right; left
        exact ⟨rfl, rfl, by rw [← h, if_pos h2]⟩
      | false =>
        right; right
        rw [if_neg (by rw [h2]; exact Bool.noConfusion)] at h
        exact ⟨rfl, rfl, h.symm⟩
  · exact absurd h (by simp)

/-- Helper: every successful graph run ends in one of exactly three
final-state shapes, one per path, with the intent value pinned down by
the router's label tests. -/
theorem runGraph_ok_cases (q : String) (o : Oracle) (gf : Except PyExc RawGraph)
    (bf : Except PyExc (String × String)) (st : FinalState)
    (h : (runGraph q o gf bf).1 = .ok st) :
    (∃ hv rv, st = ⟨some (.jstr "find_highlight"), some (get_graph_data gf), some hv,
        none, none, none, none, some rv⟩) ∨
    (∃ ct cd rv, st = ⟨some (.jstr "analysis"), none, none, some (get_bus_data bf).1,
        some (get_bus_data bf).2, some ct, some cd, some rv⟩) ∨
    (∃ intent, st = ⟨some intent, none, none, none, none, none, none,
        some (.jstr fallback_response)⟩ ∧ isJStr intent "find_highlight" = false ∧
      isJStr intent "analysis" = false) := by
  unfold runGraph at h
  split at h
  · exact absurd h (by simp)
  · rename_i intent hia
    split at h
    · exact absurd h (by simp)
    · rename_i next hcr
      rcases conditional_router_ok_cases intent next hcr with
        ⟨hf, rfl⟩ | ⟨hf, ha, rfl⟩ | ⟨hf, ha, rfl⟩
      · rw [if_pos rfl] at h
        split at h
        · exact absurd h (by simp)
        · rename_i hv rv hse
          simp only [Except.ok.injEq] at h
          exact Or.inl ⟨hv, rv, by
            rw [← h, isJStr_eq_true hf]⟩
      · rw [if_neg (by decide), if_pos rfl] at h
        split at h
        · exact absurd h (by simp)
        · rename_i ct hct
          split at h
          · exact absurd h (by simp)
          · rename_i cd rv hga
            simp only [Except.ok.injEq] at h
            exact Or.inr (Or.inl ⟨ct, cd, rv, by
              rw [← h, isJStr_eq_true ha]⟩)
      · rw [if_neg (by decide), if_neg (by decide)] at h
        simp only [Except.ok.injEq] at h
        exact Or.inr (Or.inr ⟨intent, h.symm, hf, ha⟩)

/-- Helper: response fields forced by a validated find/highlight final
state. -/
theorem mk_find_fields (gd : GraphData) (hv rv : JValue) (env : AnalyticsResponse)
    (h : mkAnalyticsResponse ⟨some (.jstr "find_highlight"), some gd, some hv,
      none, none, none, none, some rv⟩ = .ok env) :
    env.intent_type = "find_highlight" ∧ env.chart_data = none ∧ env.chart_type = none := by
  cases hv <;> cases rv <;>
    simp only [mkAnalyticsResponse, pyOptionalDict, pyOptionalStr, Option.getD_some,
      bind, Except.bind, Except.ok.injEq] at h <;>
    first
      | exact absurd h (by simp)
      | (subst h; exact ⟨rfl, rfl, rfl⟩)

/-- Helper: response fields forced by a validated analysis final
state. -/
theorem mk_analysis_fields (t c ct : String) (cd rv : JValue) (env : AnalyticsResponse)
    (h : mkAnalyticsResponse ⟨some (.jstr "analysis"), none, none, some t, some c,
      some ct, some cd, some rv⟩ = .ok env) :
    env.intent_type = "analysis" ∧ env.highlight_edge = none ∧
      env.chart_type = some ct := by
  cases cd <;> cases rv <;>
    simp only [mkAnalyticsResponse, pyOptionalDict, pyOptionalStr, Option.getD_some,
      bind, Except.bind, Except.ok.injEq] at h <;>
    first
      | exact absurd h (by simp)
      | (subst h; exact ⟨rfl, rfl, rfl⟩)

/-- Helper: response fields forced by a validated fallback final
state. -/
theorem mk_fallback_fields (intent : JValue) (env : AnalyticsResponse)
    (h : mkAnalyticsResponse ⟨some intent, none, none, none, none, none, none,
      some (.jstr fallback_response)⟩ = .ok env) :
    ∃ s, intent = .jstr s ∧
      env = ⟨s, none, none, some fallback_response, none⟩ := by
  cases intent <;>
    simp only [mkAnalyticsResponse, pyOptionalDict, pyOptionalStr, Option.getD_some,
      bind, Except.bind, Except.ok.injEq] at h <;>
    first
      | exact absurd h (by simp)
      | (rename_i s; exact ⟨s, rfl, h.symm⟩)

/-- C7 counterexample: an `analysis`-intent run whose generator answers
the `text_summary` format (with `"chart_data": null`, exactly as that
format prescribes) produces an envelope with `intent_type = "analysis"`
but a null `chart_data` — the claim's "analysis populates chart_data"
fails. -/
theorem analysis_envelope_null_chart_data :
    analyze "야간 수당 분석 결과 요약해줘" ⟨.ok (some (.jobj [("intent", .jstr "analysis"),
        ("confidence", .jnum 1), ("reason", .jstr "분석 요청")])), .ok none,
        .ok "text_summary", .ok (some (.jobj [("chart_data", .jnull),
        ("reason", .jstr "상세 분석 결과")]))⟩ (.ok ⟨[], []⟩) (.ok ("[]", "[]")) =
      .ok ⟨"analysis", none, none, some "상세 분석 결과", some "text_summary"⟩ ∧
    AnalyticsResponse.chart_data
      ⟨"analysis", none, none, some "상세 분석 결과", some "text_summary"⟩ = none :=
  ⟨rfl, rfl⟩

/-- C7 amended: in every successfully returned envelope,
`find_highlight` leaves `chart_data` and `chart_type` null; `analysis`
leaves `highlight_edge` null and always carries a `chart_type` (while
`chart_data` and `highlight_edge`/`analysis_result` contents are
whatever the model returned, possibly null); every other intent value —
`fallback` and unrecognized labels passed through — yields the fallback
shape: only `analysis_result` is populated, with the static narrative. -/
theorem envelope_field_shape (q : String) (o : Oracle) (gf : Except PyExc RawGraph)
    (bf : Except PyExc (String × String)) (env : AnalyticsResponse)
    (h : analyze q o gf bf = .ok env) :
    (env.intent_type = "find_highlight" → env.chart_data = none ∧ env.chart_type = none) ∧
    (env.intent_type = "analysis" → env.highlight_edge = none ∧
      env.chart_type.isSome = true) ∧
    (env.intent_type ≠ "find_highlight" → env.intent_type ≠ "analysis" →
      env.highlight_edge = none ∧ env.chart_data = none ∧ env.chart_type = none ∧
      env.analysis_result = some fallback_response) := by
  unfold analyze at h
  split at h
  · rename_i r hr
    simp only [Except.ok.injEq] at h
    subst h
    cases hrg : (runGraph q o gf bf).1 with
    | error e =>
      rw [hrg] at hr
      exact absurd hr (by simp [Bind.bind, Except.bind])
    | ok st =>
      rw [hrg] at hr
      simp only [Bind.bind, Except.bind] at hr
      rcases runGraph_ok_cases q o gf bf st hrg with
        ⟨hv, rv, rfl⟩ | ⟨ct, cd, rv, rfl⟩ | ⟨intent, rfl, hf, ha⟩
      · obtain ⟨hit, hcd, hct⟩ := mk_find_fields _ hv rv r hr
        refine ⟨fun _ => ⟨hcd, hct⟩, fun hx => ?_, fun hx _ => ?_⟩
        · exact absurd (hit.symm.trans hx) (by decide)
        · exact absurd hit hx
      · obtain ⟨hit, hhe, hct⟩ := mk_analysis_fields _ _ ct cd rv r hr
        refine ⟨fun hx => ?_, fun _ => ⟨hhe, by rw [hct]; rfl⟩, fun _ hx => ?_⟩
        · exact absurd (hit.symm.trans hx) (by decide)
        · exact absurd hit hx
      · obtain ⟨s, rfl, rfl⟩ := mk_fallback_fields intent r hr
        exact ⟨fun _ => ⟨rfl, rfl⟩,
          fun hx => absurd hx (by simpa [isJStr] using ha),
          fun _ _ => ⟨rfl, rfl, rfl, rfl⟩⟩
  · exact absurd h (by simp)

/-- C7 witness: the envelope-shape theorem evaluated on a concrete
fallback-path run. -/
theorem envelope_field_shape_witness :
    analyze "" ⟨.ok none, .ok none, .ok "", .ok none⟩ (.ok ⟨[], []⟩) (.ok ("[]", "[]")) =
      .ok ⟨"fallback", none, none, some fallback_response, none⟩ ∧
    (AnalyticsResponse.intent_type
        ⟨"fallback", none, none, some fallback_response, none⟩ ≠ "find_highlight" →
      AnalyticsResponse.intent_type
        ⟨"fallback", none, none, some fallback_response, none⟩ ≠ "analysis" →
      AnalyticsResponse.highlight_edge
        ⟨"fallback", none, none, some fallback_response, none⟩ = none ∧
      AnalyticsResponse.chart_data
        ⟨"fallback", none, none, some fallback_response, none⟩ = none ∧
      AnalyticsResponse.chart_type
        ⟨"fallback", none, none, some fallback_response, none⟩ = none ∧
      AnalyticsResponse.analysis_result
        ⟨"fallback", none, none, some fallback_response, none⟩ = some fallback_response) :=
  ⟨rfl, (envelope_field_shape "" ⟨.ok none, .ok none, .ok "", .ok none⟩ (.ok ⟨[], []⟩)
    (.ok ("[]", "[]")) ⟨"fallback", none, none, some fallback_response, none⟩ rfl).2.2⟩

/-- Helper: a stop's action cannot be both boarding and alighting. -/
theorem action_not_both (n : RouteNode) (h1 : (n.data.action == "승차") = true)
    (h2 : (n.data.action == "하차") = true) : False := by
  rw [beq_iff_eq] at h1 h2
  rw [h1] at h2
  exact absurd h2 (by decide)

/-- Helper: peeling one stop off the boarded-minus-alighted balance
yields that stop's signed contribution. -/
theorem board_minus_alight_cons (n : RouteNode) (t : List RouteNode) :
    boardedSum (n :: t) - alightedSum (n :: t) =
      passengerDelta n + (boardedSum t - alightedSum t) := by
  cases h1 : (n.data.action == "승차") <;> cases h2 : (n.data.action == "하차") <;>
    simp only [boardedSum, alightedSum, passengerDelta, h1, h2, if_true, if_false,
      Bool.false_eq_true, ite_false, ite_true] <;>
    first
      | omega
      | exact (action_not_both n h1 h2).elim

/-- Helper: a left fold that appends per-element blocks is the
concatenation of the blocks. -/
theorem foldl_append_eq {α β : Type} (f : α → List β) :
    ∀ (l : List α) (init : List β),
      l.foldl (fun acc g => acc ++ f g) init = init ++ l.flatMap f
  | [], init => by simp
  | g :: t, init => by
    simp only [List.foldl_cons, List.flatMap_cons]
    rw [foldl_append_eq f t]
    simp [List.append_assoc]

/-- Helper: every edge emitted by the per-group loop connects two
consecutive stops of the remaining list and carries the running balance
up to and including its source stop. -/
theorem enrichGroup_mem (edges : List RouteEdge) :
    ∀ (l : List RouteNode) (acc : Int) (e : EnrichedEdge),
      e ∈ enrichGroup edges l acc →
      ∃ (i : Nat) (n1 n2 : RouteNode) (e0 : RouteEdge),
        l[i]? = some n1 ∧ l[i + 1]? = some n2 ∧ e0 ∈ edges ∧
        e0.source = n1.id ∧ e0.target = n2.id ∧
        e.id = e0.id ∧ e.source = e0.source ∧ e.target = e0.target ∧
        e.currentPassengers =
          acc + (boardedSum (l.take (i + 1)) - alightedSum (l.take (i + 1))) ∧
        e.label = toString e.currentPassengers ++ "명" := by
  intro l
  induction l with
  | nil =>
    intro acc e he
    exact absurd he (by simp [enrichGroup])
  | cons n t ih =>
    intro acc e he
    cases t with
    | nil =>
      exact absurd he (by simp [enrichGroup])
    | cons next rest =>
      simp only [enrichGroup] at he
      cases hfind : edges.find? (fun e => e.source == n.id && e.target == next.id) with
      | some e0 =>
        rw [hfind] at he
        rcases List.mem_cons.mp he with rfl | he2
        · have hp := List.find?_some hfind
          rw [Bool.and_eq_true] at hp
          refine ⟨0, n, next, e0, by simp, by simp, List.mem_of_find?_eq_some hfind,
            (beq_iff_eq.mp hp.1), (beq_iff_eq.mp hp.2), rfl, rfl, rfl, ?_, rfl⟩
          show acc + passengerDelta n =
            acc + (boardedSum [n] - alightedSum [n])
          rw [board_minus_alight_cons]
          simp [boardedSum, alightedSum]
        · obtain ⟨i, n1, n2, e1, h1, h2, he1, hs, ht, hid, hsrc, htgt, hcp, hlb⟩ :=
            ih (acc + passengerDelta n) e he2
          refine ⟨i + 1, n1, n2, e1, by simpa using h1, by simpa using h2,
            he1, hs, ht, hid, hsrc, htgt, ?_, hlb⟩
          have hsplit : boardedSum ((n :: next :: rest).take (i + 1 + 1)) -
              alightedSum ((n :: next :: rest).take (i + 1 + 1)) =
              passengerDelta n + (boardedSum ((next :: rest).take (i + 1)) -
                alightedSum ((next :: rest).take (i + 1))) := by
            rw [List.take_succ_cons, board_minus_alight_cons]
          rw [hcp, hsplit]
          ring
      | none =>
        rw [hfind] at he
        obtain ⟨i, n1, n2, e1, h1, h2, he1, hs, ht, hid, hsrc, htgt, hcp, hlb⟩ :=
          ih (acc + passengerDelta n) e he
        refine ⟨i + 1, n1, n2, e1, by simpa using h1, by simpa using h2,
          he1, hs, ht, hid, hsrc, htgt, ?_, hlb⟩
        have hsplit : boardedSum ((n :: next :: rest).take (i + 1 + 1)) -
            alightedSum ((n :: next :: rest).take (i + 1 + 1)) =
            passengerDelta n + (boardedSum ((next :: rest).take (i + 1)) -
              alightedSum ((next :: rest).take (i + 1))) := by
          rw [List.take_succ_cons, board_minus_alight_cons]
        rw [hcp, hsplit]
        ring

/-- C10: every enriched edge returned by `calculateCurrentPassengers` is
one of the input edges (the first one found) connecting two consecutive
stops of one route group's sorted stop list, its `currentPassengers`
equals the total boarded minus the total alighted over that sorted
list up to and including the edge's source stop, and its label is that
number followed by `"명"`.  (Stops are ordered by the parsed numeric
`::`-segment of their node id, as the code's comparator computes it.) -/
theorem calculateCurrentPassengers_spec (nodes : List RouteNode) (edges : List RouteEdge)
    (e : EnrichedEdge) (he : e ∈ calculateCurrentPassengers nodes edges) :
    ∃ g ∈ routeGroups nodes, ∃ (i : Nat) (n1 n2 : RouteNode) (e0 : RouteEdge),
      (sortRouteNodes g.2)[i]? = some n1 ∧ (sortRouteNodes g.2)[i + 1]? = some n2 ∧
      e0 ∈ edges ∧ e0.source = n1.id ∧ e0.target = n2.id ∧
      e.id = e0.id ∧ e.source = e0.source ∧ e.target = e0.target ∧
      e.currentPassengers =
        boardedSum ((sortRouteNodes g.2).take (i + 1)) -
          alightedSum ((sortRouteNodes g.2).take (i + 1)) ∧
      e.label = toString e.currentPassengers ++ "명" := by
  rw [calculateCurrentPassengers, foldl_append_eq] at he
  simp only [List.nil_append] at he
  obtain ⟨g, hg, hge⟩ := List.mem_flatMap.mp he
  obtain ⟨i, n1, n2, e0, h1, h2, he0, hs, ht, hid, hsrc, htgt, hcp, hlb⟩ :=
    enrichGroup_mem edges (sortRouteNodes g.2) 0 e hge
  exact ⟨g, hg, i, n1, n2, e0, h1, h2, he0, hs, ht, hid, hsrc, htgt,
    by rw [hcp]; ring, hlb⟩

/-- C10 witness: the theorem evaluated on a two-stop route with one
connecting edge; the enriched edge carries balance 3 after the boarding
stop. -/
theorem calculateCurrentPassengers_spec_witness :
    (⟨"e1", "R::1", "R::2", 3, "3명"⟩ : EnrichedEdge) ∈
      calculateCurrentPassengers
        [⟨"R::1", some "출근1호", ⟨"승차", 3⟩⟩, ⟨"R::2", some "출근1호", ⟨"하차", 1⟩⟩]
        [⟨"e1", "R::1", "R::2", none⟩] ∧
    ∃ g ∈ routeGroups [⟨"R::1", some "출근1호", ⟨"승차", 3⟩⟩,
        ⟨"R::2", some "출근1호", ⟨"하차", 1⟩⟩],
      ∃ (i : Nat) (n1 n2 : RouteNode) (e0 : RouteEdge),
      (sortRouteNodes g.2)[i]? = some n1 ∧ (sortRouteNodes g.2)[i + 1]? = some n2 ∧
      e0 ∈ [(⟨"e1", "R::1", "R::2", none⟩ : RouteEdge)] ∧
      e0.source = n1.id ∧ e0.target = n2.id ∧
      (⟨"e1", "R::1", "R::2", 3, "3명"⟩ : EnrichedEdge).id = e0.id ∧
      (⟨"e1", "R::1", "R::2", 3, "3명"⟩ : EnrichedEdge).source = e0.source ∧
      (⟨"e1", "R::1", "R::2", 3, "3명"⟩ : EnrichedEdge).target = e0.target ∧
      (⟨"e1", "R::1", "R::2", 3, "3명"⟩ : EnrichedEdge).currentPassengers =
        boardedSum ((sortRouteNodes g.2).take (i + 1)) -
          alightedSum ((sortRouteNodes g.2).take (i + 1)) ∧
      (⟨"e1", "R::1", "R::2", 3, "3명"⟩ : EnrichedEdge).label =
        toString (⟨"e1", "R::1", "R::2", 3, "3명"⟩ : EnrichedEdge).currentPassengers ++
          "명" :=
  ⟨by decide, calculateCurrentPassengers_spec _ _ _ (by decide)⟩
